import Mathlib

/-!
# Verification of the `passport-twitter-token` strategy

Shallow embedding of the `TwitterTokenStrategy` implementation
(`src/index.js`, with the legacy variant in
`lib/passport-twitter-token/strategy.js`) and proofs about its
`authenticate`, `userProfile` and field-lookup logic.

Modelling conventions:
* Request field values are `Option String`: `none` is a missing key or a
  missing `body`/`query` object (JavaScript `undefined`), `some s` is the
  string value `s`.  JavaScript truthiness of such a value is `truthy`
  below (`undefined` and `""` are falsy, every other string is truthy).
* The `passport-oauth` collaborators (`_loadUserProfile`, `_oauth.get`)
  and the application's verify callback are external; they enter the
  embedding as explicit arguments whose value describes their one
  observable behaviour for the attempt.
* The terminal reporting channels `this.success`/`this.fail`/`this.error`
  are recorded in a list of reported outcomes, together with counters of
  profile-fetch and verify invocations, so that "exactly one outcome" and
  "no fetch happened" are statable.
-/

/-- JavaScript truthiness of an optional string value: `undefined` and the
empty string are falsy, every other string is truthy. -/
def truthy : Option String → Bool
  | none => false
  | some s => !(s == "")

/-- JavaScript `a || b` on optional string values: yields `a` when `a` is
truthy, otherwise yields `b`. -/
def jsOr (a b : Option String) : Option String :=
  if truthy a then a else b

/-- A request-side key/value object (`req.body` or `req.query`):
`none` when the object itself is absent, otherwise an association list.
`getField o f` is the JavaScript expression `o && o[f]`. -/
def getField : Option (List (String × String)) → String → Option String
  | none, _ => none
  | some o, f => (o.find? (fun p => p.1 == f)).map (fun p => p.2)

/-- An inbound request: `body` and `query` key/value mappings, either of
which may be absent. -/
structure Req where
  body : Option (List (String × String))
  query : Option (List (String × String))

/-- Strategy configuration, with the defaults applied by the
`TwitterTokenStrategy` constructor (`src/index.js` lines 43-49).
`userProfilePathname` is the path component of `_userProfileURL`. -/
structure Config where
  oauthTokenField : String := "oauth_token"
  oauthTokenSecretField : String := "oauth_token_secret"
  userIdField : String := "user_id"
  includeEmail : Bool := false
  includeStatus : Bool := true
  includeEntities : Bool := true
  passReqToCallback : Bool := false
  userProfilePathname : String := "/1.1/account/verify_credentials.json"

/-- The argument carried by a `this.fail(...)` report: `denied` is the
bare `this.fail()` on the denied-authorization path (JavaScript
`undefined`), `msg` is the `{message: ...}` object of the
missing-credentials path, `info` is the value forwarded from the verify
callback. -/
inductive FailInfo (I : Type) where
  | denied : FailInfo I
  | msg : String → FailInfo I
  | info : Option I → FailInfo I
  deriving DecidableEq, Repr

/-- A terminal outcome reported to the host framework: `this.success`,
`this.fail` or `this.error`. -/
inductive Outcome (U I E : Type) where
  | success : U → Option I → Outcome U I E
  | fail : FailInfo I → Outcome U I E
  | error : E → Outcome U I E
  deriving DecidableEq, Repr

/-- The result of one `authenticate` invocation: every outcome reported
(in order), and how many times the profile fetch and the verify callback
were invoked. -/
structure AuthTrace (U I E : Type) where
  reports : List (Outcome U I E)
  fetchCalls : Nat
  verifyCalls : Nat
  deriving DecidableEq, Repr

/-- The single call-back `(error, user, info)` made by the verify
callback.  `err = some e` is a truthy error value, `none` a falsy one;
`user = some u` is a truthy user, `none` a falsy one (`false`, `null`,
`undefined`); `info` is passed through unchanged. -/
structure VerifyCallData (U I E : Type) where
  err : Option E
  user : Option U
  info : Option I

/-- The `verified` closure of `authenticate` (`src/index.js` lines 69-74):
maps the verify callback's `(error, user, info)` to one terminal
outcome. -/
def verified {U I E : Type} (err : Option E) (user : Option U)
    (info : Option I) : Outcome U I E :=
  match err with
  | some e => Outcome.error e
  | none =>
    match user with
    | none => Outcome.fail (FailInfo.info info)
    | some u => Outcome.success u info

/-- Token extraction (`src/index.js` line 60):
`(req.body && req.body[f]) || (req.query && req.query[f])` with
`f = this._oauthTokenField`. -/
def extractToken (cfg : Config) (req : Req) : Option String :=
  jsOr (getField req.body cfg.oauthTokenField)
    (getField req.query cfg.oauthTokenField)

/-- Token-secret extraction (`src/index.js` line 61), same shape with
`f = this._oauthTokenSecretField`. -/
def extractTokenSecret (cfg : Config) (req : Req) : Option String :=
  jsOr (getField req.body cfg.oauthTokenSecretField)
    (getField req.query cfg.oauthTokenSecretField)

/-- JavaScript `s.split(sep)` for a one-character separator, over
character lists (structural, so the kernel can evaluate it).  The result
is never empty: `""` splits to `[""]`, as in JavaScript. -/
def splitCharAux (sep : Char) : List Char → List (List Char)
  | [] => [[]]
  | c :: t =>
    match splitCharAux sep t with
    | [] => [[]]
    | g :: gs => if c == sep then [] :: g :: gs else (c :: g) :: gs

/-- JavaScript `s.split(sep)` for a one-character separator. -/
def jsSplit (s : String) (sep : Char) : List String :=
  (splitCharAux sep s.data).map (fun l => String.mk l)

/-- The fallback `token && token.split('-')[0]` of the user-id
extraction: a falsy token is returned as is, a truthy one is split at
`'-'` and the first segment taken. -/
def tokenSplitFallback : Option String → Option String
  | none => none
  | some s => if s == "" then some s else some ((jsSplit s '-').headD s)

/-- User-id extraction (`src/index.js` line 62):
`(req.body && req.body[u]) || (req.query && req.query[u]) ||
(token && token.split('-')[0])`. -/
def extractUserId (cfg : Config) (req : Req) : Option String :=
  jsOr
    (jsOr (getField req.body cfg.userIdField)
      (getField req.query cfg.userIdField))
    (tokenSplitFallback (extractToken cfg req))

/-- The missing-credentials diagnostic of `src/index.js` line 64:
``You should provide ${this._oauthTokenField} and
${this._oauthTokenSecretField}``. -/
def missingTokenMessage (cfg : Config) : String :=
  "You should provide " ++ cfg.oauthTokenField ++ " and " ++
    cfg.oauthTokenSecretField

/-- `authenticate(req)` (`src/index.js` lines 56-82).

`load` is the one call-back of `_loadUserProfile` for this attempt
(`Except.error e` when it reports an error, `Except.ok p` a profile);
invoking it counts as the profile fetch.  `verify` is the application's
verify callback: its first argument is `some req` exactly when
`_passReqToCallback` routes the request to it, and its result is `some`
of the `(error, user, info)` it calls back with, or `none` when it never
calls back. -/
def authenticate {U I E P : Type} (cfg : Config) (req : Req)
    (load : Except E P)
    (verify : Option Req → Option String → Option String → P →
      Option (VerifyCallData U I E)) : AuthTrace U I E :=
  if truthy (getField req.query "denied") then
    { reports := [Outcome.fail FailInfo.denied]
      fetchCalls := 0, verifyCalls := 0 }
  else
    let token := extractToken cfg req
    let tokenSecret := extractTokenSecret cfg req
    if !truthy token then
      { reports := [Outcome.fail (FailInfo.msg (missingTokenMessage cfg))]
        fetchCalls := 0, verifyCalls := 0 }
    else
      match load with
      | Except.error e =>
        { reports := [Outcome.error e], fetchCalls := 1, verifyCalls := 0 }
      | Except.ok profile =>
        let reqArg := if cfg.passReqToCallback then some req else none
        match verify reqArg token tokenSecret profile with
        | none => { reports := [], fetchCalls := 1, verifyCalls := 1 }
        | some c =>
          { reports := [verified c.err c.user c.info]
            fetchCalls := 1, verifyCalls := 1 }

/-!
## `userProfile` (`src/index.js` lines 91-134)

The URL machinery of the node `url` module is external; the embedding
works on the path component of the configured profile URL and records
which query parameters lines 94-106 inject.  `JSON.parse` is a JavaScript
builtin: its outcome on the opaque response body travels with the body as
an oracle, except for its one arithmetically relevant feature, that JSON
numeric literals are read into IEEE-754 binary64, which `jsNumOfNat`
models exactly.
-/

/-- First index of `pat` in `s` (JavaScript `String.prototype.indexOf`
restricted to a found/not-found `Option`), over character lists. -/
def idxOf (pat : List Char) : List Char → Option Nat
  | [] => if pat.isPrefixOf ([] : List Char) then some 0 else none
  | c :: t =>
    if pat.isPrefixOf (c :: t) then some 0
    else (idxOf pat t).map (fun n => n + 1)

/-- JavaScript `s.indexOf(pat)`: the first occurrence index, `-1` when
absent. -/
def jsIndexOf (s pat : String) : Int :=
  match idxOf pat.data s.data with
  | some n => (n : Int)
  | none => -1

/-- Whether `s` ends with `pat` (the property the specification states
for the `user_id` injection). -/
def strEndsWith (s pat : String) : Bool :=
  pat.data.isSuffixOf s.data

/-- The path pattern of `src/index.js` line 95. -/
def showJsonPat : String := "/users/show.json"

/-- The `user_id` injection condition of `src/index.js` line 95:
`url.pathname.indexOf('/users/show.json') ==
(url.pathname.length - '/users/show.json'.length)`. -/
def injectUserId (pathname : String) : Bool :=
  jsIndexOf pathname showJsonPat ==
    (pathname.length : Int) - (showJsonPat.length : Int)

/-- The query parameters `userProfile` injects into the profile-fetch URL
(`src/index.js` lines 94-106).  `userId = some v` means the `user_id`
parameter was set (to `params.user_id`, itself possibly undefined);
the three flags record `include_email = true`, `skip_status = true` and
`include_entities = false` respectively. -/
structure ProfileQuery where
  userId : Option (Option String)
  includeEmail : Bool
  skipStatus : Bool
  includeEntitiesFalse : Bool
  deriving DecidableEq, Repr

/-- URL query construction of `userProfile` (`src/index.js` lines
92-106), on the path component of the configured profile URL. -/
def buildProfileQuery (cfg : Config) (userIdParam : Option String) :
    ProfileQuery :=
  { userId :=
      if injectUserId cfg.userProfilePathname then some userIdParam
      else none
    includeEmail := cfg.includeEmail == true
    skipStatus := cfg.includeStatus == false
    includeEntitiesFalse := cfg.includeEntities == false }

/-- Floor of the base-2 logarithm, by structural recursion on a fuel
argument so the kernel can evaluate it on literals. -/
def log2Fuel : Nat → Nat → Nat
  | 0, _ => 0
  | fuel + 1, n => if n ≤ 1 then 0 else log2Fuel fuel (n / 2) + 1

/-- Floor of the base-2 logarithm of a positive natural. -/
def natLog2 (n : Nat) : Nat := log2Fuel n n

/-- Round a natural number to the nearest IEEE-754 binary64 value (ties
to even), returned as its exact integer value.  This is what `JSON.parse`
does to an integer numeric literal.  Every natural below `2 ^ 53` is
exact; above, the 53-bit significand forces rounding.  (Valid below the
binary64 overflow threshold, far beyond any identifier.) -/
def jsNumOfNat (n : Nat) : Nat :=
  if n < 2 ^ 53 then n
  else
    let e := natLog2 n - 52
    let q := n / 2 ^ e
    let r := n % 2 ^ e
    let half := 2 ^ (e - 1)
    if r < half then q * 2 ^ e
    else if half < r then (q + 1) * 2 ^ e
    else if q % 2 = 0 then q * 2 ^ e
    else (q + 1) * 2 ^ e

/-- The fields of the parsed profile JSON that `userProfile` reads.
`id` is the integer numeric literal of the body text when present (the
identifiers Twitter issues are naturals); `none` elsewhere is an absent
field (JavaScript `undefined`). -/
structure RawJson where
  id : Option Nat := none
  id_str : Option String := none
  screen_name : Option String := none
  name : Option String := none
  profile_image_url_https : Option String := none
  email : Option String := none
  deriving DecidableEq, Repr

/-- An HTTP response body together with the outcome `JSON.parse` has on
it: `Except.error e` when parsing throws the exception `e`, `Except.ok j`
when it yields an object with the fields `j` (as written in the text,
before number rounding). -/
structure TransportBody where
  raw : String
  parsed : Except String RawJson

/-- `JSON.parse` on a response body: the oracle outcome, with integer
numeric literals read into binary64 (`jsNumOfNat`). -/
def jsonParse (b : TransportBody) : Except String RawJson :=
  b.parsed.map (fun j => { j with id := j.id.map jsNumOfNat })

/-- JavaScript `String(x)` on the parsed `id` field: `undefined` prints
as `"undefined"`, an integral binary64 below `10 ^ 21` prints as its
decimal digits. -/
def jsStringOfNum : Option Nat → String
  | none => "undefined"
  | some n => Nat.repr n

/-- The `name` sub-record of the normalized profile. -/
structure PName where
  familyName : String
  givenName : String
  middleName : String
  deriving DecidableEq, Repr

/-- The normalized profile record (`src/index.js` lines 113-127; `raw`
and `json` are the source's `_raw` and `_json`). -/
structure Profile where
  provider : String
  id : String
  username : Option String
  displayName : Option String
  name : PName
  emails : List (Option String)
  photos : List (Option String)
  raw : String
  json : RawJson
  deriving DecidableEq, Repr

/-- Construction of the profile from the parsed JSON (`src/index.js`
lines 113-127).  The ternary `json.id_str ? json.id_str : String(json.id)`
tests truthiness of `id_str`. -/
def mkProfile (body : String) (json : RawJson) : Profile :=
  { provider := "twitter"
    id :=
      if truthy json.id_str then json.id_str.getD ""
      else jsStringOfNum json.id
    username := json.screen_name
    displayName := json.name
    name := { familyName := "", givenName := "", middleName := "" }
    emails := [json.email]
    photos := [json.profile_image_url_https]
    raw := body
    json := json }

/-- The faults `userProfile` can report: `internalOAuth` is
`new InternalOAuthError('Failed to fetch user profile', error)` wrapping
the transport error, `parse` is the raw exception of a failed
`JSON.parse`. -/
inductive UPErr (E : Type) where
  | internalOAuth : String → E → UPErr E
  | parse : String → UPErr E
  deriving DecidableEq, Repr

/-- `userProfile` (`src/index.js` lines 108-133) past the URL step:
`transport` is the one call-back of `this._oauth.get` for this fetch. -/
def userProfile {E : Type} (transport : Except E TransportBody) :
    Except (UPErr E) Profile :=
  match transport with
  | Except.error e =>
    Except.error (UPErr.internalOAuth "Failed to fetch user profile" e)
  | Except.ok b =>
    match jsonParse b with
    | Except.error e => Except.error (UPErr.parse e)
    | Except.ok json => Except.ok (mkProfile b.raw json)

/-!
## The legacy nested field lookup helper
(`lib/passport-twitter-token/strategy.js` lines 111-121)
-/

/-- A JavaScript value, as far as `lookup` can observe one.  Property
access on a non-object primitive yields `undefined` here (boxed
properties of primitives, such as string `length`, are outside the
fields the strategy reads). -/
inductive JsVal where
  | undef : JsVal
  | null : JsVal
  | bool : Bool → JsVal
  | num : Int → JsVal
  | str : String → JsVal
  | obj : List (String × JsVal) → JsVal
  deriving Repr

/-- JavaScript falsiness of a value: `undefined`, `null`, `false`, `0`
and `""` are falsy. -/
def jsFalsy : JsVal → Bool
  | JsVal.undef => true
  | JsVal.null => true
  | JsVal.bool b => !b
  | JsVal.num n => n == 0
  | JsVal.str s => s == ""
  | JsVal.obj _ => false

/-- Property read `o[k]` on a value that is neither `undefined` nor
`null`: an object yields the field's value or `undefined`, any other
primitive yields `undefined`. -/
def getProp : JsVal → String → JsVal
  | JsVal.obj fields, k =>
    match fields.find? (fun p => p.1 == k) with
    | some p => p.2
    | none => JsVal.undef
  | _, _ => JsVal.undef

/-- The chain of path segments: `field.split(']').join('').split('[')`
(strategy.js line 113). -/
def splitChain (field : String) : List String :=
  jsSplit (String.join (jsSplit field ']')) '['

/-- What a `lookup` call does: return a value (`ok`), or raise a
`TypeError` (`err`) from a property access on `null` or `undefined`. -/
inductive LookupRes where
  | ok : JsVal → LookupRes
  | err : LookupRes
  deriving Repr

/-- The loop of `lookup` (strategy.js lines 114-119) over the remaining
segments; falling off the end returns `null` (line 120).  Property
access on `null`/`undefined` throws; `typeof prop === 'undefined'`
returns `null`; a non-object `prop` is returned; an object (including
`null`, whose `typeof` is `'object'`) becomes the new `obj`. -/
def lookupGo : JsVal → List String → LookupRes
  | _, [] => LookupRes.ok JsVal.null
  | JsVal.null, _ :: _ => LookupRes.err
  | JsVal.undef, _ :: _ => LookupRes.err
  | o, k :: rest =>
    match getProp o k with
    | JsVal.undef => LookupRes.ok JsVal.null
    | JsVal.null => lookupGo JsVal.null rest
    | JsVal.obj fields => lookupGo (JsVal.obj fields) rest
    | p => LookupRes.ok p

/-- `lookup(obj, field)` (strategy.js lines 111-121): `null` for a falsy
`obj`, otherwise the walk over the bracket-path segments. -/
def lookup (o : JsVal) (field : String) : LookupRes :=
  if jsFalsy o then LookupRes.ok JsVal.null
  else lookupGo o (splitChain field)

/-!
## Theorems
-/

/-- Helper: with no denied signal and a falsy extracted token,
`authenticate` reports exactly the missing-credentials failure and
invokes nothing. -/
theorem authenticate_of_token_falsy {U I E P : Type} (cfg : Config)
    (req : Req) (load : Except E P)
    (verify : Option Req → Option String → Option String → P →
      Option (VerifyCallData U I E))
    (hd : truthy (getField req.query "denied") = false)
    (ht : truthy (extractToken cfg req) = false) :
    authenticate cfg req load verify =
      { reports := [Outcome.fail (FailInfo.msg (missingTokenMessage cfg))]
        fetchCalls := 0, verifyCalls := 0 } := by
  unfold authenticate
  simp [hd, ht]

/-- Claim C1: the `verified` closure maps the verify callback's single
call-back `(error, user, info)` to exactly one terminal outcome: a truthy
`error` yields `Error(error)`; a falsy `error` with a falsy `user` yields
`Fail(info)`; otherwise `Success(user, info)`. -/
theorem verified_maps_callback_to_one_outcome {U I E : Type}
    (e : E) (u : Option U) (i : Option I) (x : U) :
    verified (U := U) (some e) u i = Outcome.error e ∧
    verified (U := U) (E := E) none none i =
      Outcome.fail (FailInfo.info i) ∧
    verified (E := E) none (some x) i = Outcome.success x i := by
  refine ⟨rfl, rfl, rfl⟩

/-- Claim C3: when the configured token field is present in neither the
request body nor the request query and no denied signal is present,
`authenticate` reports exactly one `Fail` whose message names exactly the
two configured field names, with no profile fetch and no verify call. -/
theorem authenticate_missing_token_fails {U I E P : Type} (cfg : Config)
    (req : Req) (load : Except E P)
    (verify : Option Req → Option String → Option String → P →
      Option (VerifyCallData U I E))
    (hd : truthy (getField req.query "denied") = false)
    (hb : getField req.body cfg.oauthTokenField = none)
    (hq : getField req.query cfg.oauthTokenField = none) :
    authenticate cfg req load verify =
      { reports := [Outcome.fail (FailInfo.msg
          ("You should provide " ++ cfg.oauthTokenField ++ " and " ++
            cfg.oauthTokenSecretField))]
        fetchCalls := 0, verifyCalls := 0 } := by
  have ht : truthy (extractToken cfg req) = false := by
    simp [extractToken, jsOr, hb, hq, truthy]
  simpa [missingTokenMessage] using
    authenticate_of_token_falsy cfg req load verify hd ht

/-- Witness for C3 at a concrete request with empty body and query. -/
theorem authenticate_missing_token_fails_witness :
    authenticate (U := Unit) (I := Unit) (E := Unit) (P := Unit) {}
        { body := some [], query := some [] } (Except.ok ())
        (fun _ _ _ _ => none) =
      { reports := [Outcome.fail (FailInfo.msg
          ("You should provide " ++ "oauth_token" ++ " and " ++
            "oauth_token_secret"))]
        fetchCalls := 0, verifyCalls := 0 } :=
  authenticate_missing_token_fails {} { body := some [], query := some [] }
    (Except.ok ()) (fun _ _ _ _ => none) rfl rfl rfl

/-- Claim C4: a request whose query carries a truthy denied signal makes
`authenticate` report exactly one `Fail` immediately: zero profile
fetches and zero verify calls. -/
theorem authenticate_denied_fails_immediately {U I E P : Type}
    (cfg : Config) (req : Req) (load : Except E P)
    (verify : Option Req → Option String → Option String → P →
      Option (VerifyCallData U I E))
    (hd : truthy (getField req.query "denied") = true) :
    authenticate cfg req load verify =
      { reports := [Outcome.fail FailInfo.denied]
        fetchCalls := 0, verifyCalls := 0 } := by
  unfold authenticate
  simp [hd]

/-- Witness for C4 at a concrete denied request. -/
theorem authenticate_denied_fails_immediately_witness :
    authenticate (U := Unit) (I := Unit) (E := Unit) (P := Unit) {}
        { body := none, query := some [("denied", "xxx")] }
        (Except.ok ()) (fun _ _ _ _ => none) =
      { reports := [Outcome.fail FailInfo.denied]
        fetchCalls := 0, verifyCalls := 0 } :=
  authenticate_denied_fails_immediately {}
    { body := none, query := some [("denied", "xxx")] }
    (Except.ok ()) (fun _ _ _ _ => none) rfl

/-- Claim C8: a transport-level error makes `userProfile` report the
wrapping `InternalOAuthError` with the fixed diagnostic message and the
underlying cause attached, never the raw transport error value. -/
theorem userProfile_wraps_transport_error {E : Type} (e : E) :
    userProfile (Except.error e) =
      Except.error
        (UPErr.internalOAuth "Failed to fetch user profile" e) := rfl

/-- Claim C2, counterexample: a profile body whose numeric `id` literal
is `9007199254740993` (`2 ^ 53 + 1`) with no `id_str` field yields the
profile id `"9007199254740992"` — the identifier is rounded through
`JSON.parse`'s binary64 numbers, not kept exact. -/
theorem userProfile_large_id_rounded :
    (userProfile (E := String) (Except.ok
        { raw := "\x7b\"id\":9007199254740993\x7d"
          parsed := Except.ok { id := some 9007199254740993 } })).map
        Profile.id = Except.ok "9007199254740992" ∧
    (userProfile (E := String) (Except.ok
        { raw := "\x7b\"id\":9007199254740993\x7d"
          parsed := Except.ok { id := some 9007199254740993 } })).map
        Profile.id ≠ Except.ok "9007199254740993" := by
  refine ⟨rfl, fun h => ?_⟩
  rw [show (userProfile (E := String) (Except.ok
      { raw := "\x7b\"id\":9007199254740993\x7d"
        parsed := Except.ok { id := some 9007199254740993 } })).map
      Profile.id = Except.ok "9007199254740992" from rfl] at h
  exact absurd (Except.ok.inj h) (by decide)

/-- Claim C2, amended: on parse success the profile id is the `id_str`
field whenever that is a non-empty string; with no `id_str`, the id is
the decimal string of the binary64 value `JSON.parse` read the numeric
`id` literal into, which rounds `9007199254740993` (`2 ^ 53 + 1`) to
`9007199254740992`. -/
theorem userProfile_id_construction (raw : String) (lit : RawJson) :
    (∀ s, lit.id_str = some s → s ≠ "" →
      (userProfile (E := String)
          (Except.ok { raw := raw, parsed := Except.ok lit })).map
        Profile.id = Except.ok s) ∧
    (lit.id_str = none →
      (userProfile (E := String)
          (Except.ok { raw := raw, parsed := Except.ok lit })).map
        Profile.id =
        Except.ok (jsStringOfNum (lit.id.map jsNumOfNat))) ∧
    jsNumOfNat 9007199254740993 = 9007199254740992 := by
  refine ⟨fun s hs hne => ?_, fun hn => ?_, by decide⟩
  · simp [userProfile, jsonParse, Except.map, mkProfile, hs, truthy, hne]
  · simp [userProfile, jsonParse, Except.map, mkProfile, hn, truthy]

/-- Witness for the amended C2 at a concrete parsed body carrying
`id_str`. -/
theorem userProfile_id_construction_witness :
    (userProfile (E := String) (Except.ok
        { raw := "\x7b\"id_str\":\"42\"\x7d"
          parsed := Except.ok { id_str := some "42" } })).map
      Profile.id = Except.ok "42" :=
  (userProfile_id_construction "\x7b\"id_str\":\"42\"\x7d"
    { id_str := some "42" }).1 "42" rfl (by decide)

/-- Claim C5, counterexample: with the token field present in both
places, the body value does not take precedence when it is the empty
string — the query value is extracted instead. -/
theorem extractToken_empty_body_not_precedent :
    extractToken {}
        { body := some [("oauth_token", "")]
          query := some [("oauth_token", "tok-1")] } = some "tok-1" ∧
    (some "tok-1" : Option String) ≠ some "" := by
  exact ⟨rfl, by decide⟩

/-- Claim C5, amended: token and token secret come from the body when
the body value is truthy (non-empty) and from the query otherwise; the
user id likewise, falling back, when both locations yield no truthy
value, to `token && token.split('-')[0]` — for a non-empty token, the
segment before the first `'-'`. -/
theorem extraction_checks_body_then_query (cfg : Config) (req : Req) :
    (truthy (getField req.body cfg.oauthTokenField) = true →
      extractToken cfg req = getField req.body cfg.oauthTokenField) ∧
    (truthy (getField req.body cfg.oauthTokenField) = false →
      extractToken cfg req = getField req.query cfg.oauthTokenField) ∧
    (truthy (getField req.body cfg.oauthTokenSecretField) = true →
      extractTokenSecret cfg req =
        getField req.body cfg.oauthTokenSecretField) ∧
    (truthy (getField req.body cfg.oauthTokenSecretField) = false →
      extractTokenSecret cfg req =
        getField req.query cfg.oauthTokenSecretField) ∧
    (truthy (getField req.body cfg.userIdField) = true →
      extractUserId cfg req = getField req.body cfg.userIdField) ∧
    (truthy (getField req.body cfg.userIdField) = false →
      truthy (getField req.query cfg.userIdField) = true →
      extractUserId cfg req = getField req.query cfg.userIdField) ∧
    (truthy (getField req.body cfg.userIdField) = false →
      truthy (getField req.query cfg.userIdField) = false →
      ∀ s, extractToken cfg req = some s → s ≠ "" →
        extractUserId cfg req = some ((jsSplit s '-').headD s)) := by
  refine ⟨fun h => ?_, fun h => ?_, fun h => ?_, fun h => ?_, fun h => ?_,
    fun h h' => ?_, fun h h' s hs hne => ?_⟩
  · simp [extractToken, jsOr, h]
  · simp [extractToken, jsOr, h]
  · simp [extractTokenSecret, jsOr, h]
  · simp [extractTokenSecret, jsOr, h]
  · simp [extractUserId, jsOr, h]
  · simp [extractUserId, jsOr, h, h']
  · simp [extractUserId, jsOr, h, h', hs, tokenSplitFallback, hne]

/-- Witness for the amended C5: user id falls back to the token prefix
on a request carrying only the token and secret. -/
theorem extraction_checks_body_then_query_witness :
    extractUserId {}
        { body := some [("oauth_token", "tok-1"),
            ("oauth_token_secret", "sec")]
          query := none } = some "tok" :=
  (extraction_checks_body_then_query {}
      { body := some [("oauth_token", "tok-1"),
          ("oauth_token_secret", "sec")]
        query := none }).2.2.2.2.2.2 rfl rfl "tok-1" rfl (by decide)

/-- Claim C6, counterexample: a verify callback that never calls back is
a behaviour with at most one call-back, yet the attempt then terminates
with no reported outcome at all — not exactly one. -/
theorem authenticate_silent_verify_no_outcome :
    (authenticate (U := Unit) (I := Unit) (E := Unit) (P := Unit) {}
        { body := some [("oauth_token", "tok"),
            ("oauth_token_secret", "sec")]
          query := none }
        (Except.ok ()) (fun _ _ _ _ => none)).reports.length ≠ 1 := by
  decide

/-- Claim C6, amended: when the verify callback calls back exactly once
on every invocation, each `authenticate` invocation reports exactly one
terminal outcome, whatever the request and the transport behaviour. -/
theorem authenticate_exactly_one_outcome {U I E P : Type} (cfg : Config)
    (req : Req) (load : Except E P)
    (verify : Option Req → Option String → Option String → P →
      Option (VerifyCallData U I E))
    (hv : ∀ r t ts p, verify r t ts p ≠ none) :
    (authenticate cfg req load verify).reports.length = 1 := by
  unfold authenticate
  by_cases hd : truthy (getField req.query "denied")
  · simp [hd]
  · simp only [hd, if_false, Bool.false_eq_true]
    by_cases ht : truthy (extractToken cfg req)
    · simp only [ht]
      cases load with
      | error e => simp
      | ok p =>
        cases hvv : verify (if cfg.passReqToCallback then some req else none)
            (extractToken cfg req) (extractTokenSecret cfg req) p with
        | none => exact absurd hvv (hv _ _ _ _)
        | some c => simp [hvv]
    · simp [ht]

/-- Witness for the amended C6 at a concrete always-calling verify
callback. -/
theorem authenticate_exactly_one_outcome_witness :
    (authenticate (U := Unit) (I := Unit) (E := Unit) (P := Unit) {}
        { body := some [("oauth_token", "tok"),
            ("oauth_token_secret", "sec")]
          query := none }
        (Except.ok ())
        (fun _ _ _ _ =>
          some { err := none, user := some (), info := none })).reports.length
      = 1 :=
  authenticate_exactly_one_outcome {}
    { body := some [("oauth_token", "tok"), ("oauth_token_secret", "sec")]
      query := none }
    (Except.ok ())
    (fun _ _ _ _ => some { err := none, user := some (), info := none })
    (fun _ _ _ _ h => Option.noConfusion h)

/-- Claim C7, counterexample: a configured profile endpoint whose path
is 15 characters long and does not end with `/users/show.json` still
gets the `user_id` parameter injected, because `indexOf` returns `-1`
there and `-1` equals the path length minus the pattern length. -/
theorem buildProfileQuery_spurious_user_id :
    (buildProfileQuery { userProfilePathname := "/abcdefghijklmn" }
        (some "42")).userId = some (some "42") ∧
    strEndsWith "/abcdefghijklmn" showJsonPat = false := by
  exact ⟨by decide, by decide⟩

/-- Claim C7, amended: `user_id` is injected exactly when the first
occurrence index of `/users/show.json` in the configured endpoint path
equals the path length minus the pattern length (`-1 = -1` when the
pattern is absent from a 15-character path also satisfies this); the
email, status and entities parameters follow the configuration flags
exactly as claimed. -/
theorem buildProfileQuery_conditions (cfg : Config) (u : Option String) :
    (buildProfileQuery cfg u).userId =
      (if jsIndexOf cfg.userProfilePathname showJsonPat =
          (cfg.userProfilePathname.length : Int) -
            (showJsonPat.length : Int)
        then some u else none) ∧
    (buildProfileQuery cfg u).includeEmail = cfg.includeEmail ∧
    (buildProfileQuery cfg u).skipStatus = !cfg.includeStatus ∧
    (buildProfileQuery cfg u).includeEntitiesFalse =
      !cfg.includeEntities := by
  refine ⟨?_, ?_, ?_, ?_⟩
  · simp only [buildProfileQuery, injectUserId, beq_iff_eq]
  · cases h : cfg.includeEmail <;> simp [buildProfileQuery, h]
  · cases h : cfg.includeStatus <;> simp [buildProfileQuery, h]
  · cases h : cfg.includeEntities <;> simp [buildProfileQuery, h]

/-- Claim C9, counterexample: the token field carrying the empty string
in the body does not force a missing-credentials failure — a truthy
query value overrides it and the attempt proceeds to the profile fetch
and the verify callback. -/
theorem authenticate_empty_body_token_overridden :
    (authenticate (U := Unit) (I := Unit) (E := Unit) (P := Unit) {}
        { body := some [("oauth_token", "")]
          query := some [("oauth_token", "tok-1"),
            ("oauth_token_secret", "sec")] }
        (Except.ok ())
        (fun _ _ _ _ =>
          some { err := none, user := some (), info := none })) ≠
      { reports := [Outcome.fail (FailInfo.msg (missingTokenMessage {}))]
        fetchCalls := 0, verifyCalls := 0 } ∧
    (authenticate (U := Unit) (I := Unit) (E := Unit) (P := Unit) {}
        { body := some [("oauth_token", "")]
          query := some [("oauth_token", "tok-1"),
            ("oauth_token_secret", "sec")] }
        (Except.ok ())
        (fun _ _ _ _ =>
          some { err := none, user := some (), info := none })).fetchCalls
      = 1 := by
  exact ⟨by decide, by decide⟩

/-- Claim C9, amended: whenever the token value `authenticate` extracts
(body first, query as fallback) is the empty string — in particular when
the field is syntactically present with value `""` wherever it appears —
the attempt fails with the missing-credentials diagnostic, with no
profile fetch and no verify call. -/
theorem authenticate_empty_extracted_token_fails {U I E P : Type}
    (cfg : Config) (req : Req) (load : Except E P)
    (verify : Option Req → Option String → Option String → P →
      Option (VerifyCallData U I E))
    (hd : truthy (getField req.query "denied") = false)
    (ht : extractToken cfg req = some "") :
    authenticate cfg req load verify =
      { reports := [Outcome.fail (FailInfo.msg (missingTokenMessage cfg))]
        fetchCalls := 0, verifyCalls := 0 } :=
  authenticate_of_token_falsy cfg req load verify hd
    (by simp [ht, truthy])

/-- Witness for the amended C9 at a request whose token field is present
with the empty string in both body and query. -/
theorem authenticate_empty_extracted_token_fails_witness :
    authenticate (U := Unit) (I := Unit) (E := Unit) (P := Unit) {}
        { body := some [("oauth_token", "")]
          query := some [("oauth_token", "")] }
        (Except.ok ()) (fun _ _ _ _ => none) =
      { reports := [Outcome.fail (FailInfo.msg (missingTokenMessage {}))]
        fetchCalls := 0, verifyCalls := 0 } :=
  authenticate_empty_extracted_token_fails {}
    { body := some [("oauth_token", "")]
      query := some [("oauth_token", "")] }
    (Except.ok ()) (fun _ _ _ _ => none) rfl rfl

/-- Helper: the walk of `lookup` never returns an object value and never
returns `undefined` — its only returns are `null` and non-object
primitives. -/
theorem lookupGo_result (ks : List String) : ∀ o : JsVal,
    (∀ fs, lookupGo o ks ≠ LookupRes.ok (JsVal.obj fs)) ∧
    lookupGo o ks ≠ LookupRes.ok JsVal.undef := by
  induction ks with
  | nil => intro o; cases o <;> simp [lookupGo]
  | cons k rest ih =>
    intro o
    cases o with
    | undef => simp [lookupGo]
    | null => simp [lookupGo]
    | bool b => simp [lookupGo, getProp]
    | num n => simp [lookupGo, getProp]
    | str s => simp [lookupGo, getProp]
    | obj fields =>
      cases hp : getProp (JsVal.obj fields) k with
      | undef => simp [lookupGo, hp]
      | null => simpa [lookupGo, hp] using ih JsVal.null
      | bool b => simp [lookupGo, hp]
      | num n => simp [lookupGo, hp]
      | str s => simp [lookupGo, hp]
      | obj fs2 => simpa [lookupGo, hp] using ih (JsVal.obj fs2)

/-- Claim C10, counterexample: on the object `{a: null}` with the
bracket path `a[b]`, the helper does not return `null` — the walk sets
`obj` to `null` (whose `typeof` is `'object'`) and the next property
access throws a `TypeError`. -/
theorem lookup_null_segment_throws :
    lookup (JsVal.obj [("a", JsVal.null)]) "a[b]" = LookupRes.err ∧
    LookupRes.err ≠ LookupRes.ok JsVal.null := by
  exact ⟨rfl, fun h => LookupRes.noConfusion h⟩

/-- Claim C10, amended: the helper returns `null` for an absent or falsy
input value; whenever it returns, the result is never an object value
and never `undefined` (so a full path resolving to an object yields
`null`, and an undefined segment yields `null`); but when an
intermediate segment resolves to JavaScript `null`, the next property
access throws instead of returning. -/
theorem lookup_never_yields_object (o : JsVal) (field : String) :
    (jsFalsy o = true → lookup o field = LookupRes.ok JsVal.null) ∧
    (∀ fs, lookup o field ≠ LookupRes.ok (JsVal.obj fs)) ∧
    lookup o field ≠ LookupRes.ok JsVal.undef := by
  refine ⟨fun h => by simp [lookup, h], ?_, ?_⟩
  · intro fs
    by_cases h : jsFalsy o
    · simp [lookup, h]
    · simpa [lookup, h] using (lookupGo_result (splitChain field) o).1 fs
  · by_cases h : jsFalsy o
    · simp [lookup, h]
    · simpa [lookup, h] using (lookupGo_result (splitChain field) o).2

/-- Witness for the amended C10: a falsy input returns `null`. -/
theorem lookup_never_yields_object_witness :
    lookup JsVal.null "a" = LookupRes.ok JsVal.null :=
  (lookup_never_yields_object JsVal.null "a").1 rfl
